import Mathlib

/-!
Shallow embedding of the ip-geo-api backend (Express + Prisma + zod +
express-rate-limit + jsonwebtoken + bcrypt + axios), covering:

* `src/controllers/authController.js` — `register`, `login`, `validateToken`,
  `getIPInfo`
* `src/middleware/errorHandler.js` — `errorHandler`
* `src/middleware/validationMiddleware.js` — `loginSchema`, `registerSchema`,
  `ipSchema`, `validateRequest`
* `src/routes/authRoutes.js` — `authLimiter` and the route wiring

External collaborators (the Prisma store, bcrypt, jsonwebtoken, axios and the
express-rate-limit counter) are modelled from their documented semantics at the
exact points the controllers use them; the controllers and middleware
themselves are translated statement by statement from the source.
-/

namespace IpGeoApi

/-! ## JSON values

Response bodies are JSON objects. The mutual inductive keeps every recursion
structural. Field order is kept exactly as written in the source. -/

mutual

inductive Json where
  | null : Json
  | bool (b : Bool) : Json
  | num (n : Int) : Json
  | str (s : String) : Json
  | arr (elems : JsonList) : Json
  | obj (fields : JsonObj) : Json

inductive JsonList where
  | nil : JsonList
  | cons (head : Json) (tail : JsonList) : JsonList

inductive JsonObj where
  | nil : JsonObj
  | cons (key : String) (val : Json) (tail : JsonObj) : JsonObj

end

mutual

/-- All object keys occurring anywhere in a JSON value, outermost first. -/
def Json.keys : Json → List String
  | .null => []
  | .bool _ => []
  | .num _ => []
  | .str _ => []
  | .arr es => JsonList.keys es
  | .obj fs => JsonObj.keys fs

def JsonList.keys : JsonList → List String
  | .nil => []
  | .cons h t => Json.keys h ++ JsonList.keys t

def JsonObj.keys : JsonObj → List String
  | .nil => []
  | .cons k v t => k :: (Json.keys v ++ JsonObj.keys t)

end

deriving instance DecidableEq for Json
deriving instance DecidableEq for JsonList
deriving instance DecidableEq for JsonObj

/-- Keys of a JSON object spine, in order. -/
def JsonObj.topList : JsonObj → List String
  | .nil => []
  | .cons k _ t => k :: JsonObj.topList t

/-- Keys of the top-level object (empty for non-objects). -/
def Json.topKeys : Json → List String
  | .obj fs => JsonObj.topList fs
  | _ => []

/-- Lookup of a field in a JSON object spine. -/
def JsonObj.lookupKey : JsonObj → String → Option Json
  | .nil, _ => none
  | .cons k v t, k2 => if k = k2 then some v else JsonObj.lookupKey t k2

/-- Lookup of a top-level field of a JSON object. -/
def Json.lookup : Json → String → Option Json
  | .obj fs, k => JsonObj.lookupKey fs k
  | _, _ => none

/-- Length of a JSON list spine. -/
def JsonList.len : JsonList → Nat
  | .nil => 0
  | .cons _ t => JsonList.len t + 1

/-- Length of a JSON array (0 for non-arrays). -/
def Json.arrLen : Json → Nat
  | .arr es => JsonList.len es
  | _ => 0

example : Json.keys (.obj (.cons "a" (.obj (.cons "b" .null .nil)) .nil)) = ["a", "b"] := by
  decide

/-! ## Data model

Modelled from `prisma/schema.prisma` (shown in the README): `User` has an
autoincrement integer `id`, a unique `email`, a `password` column holding the
bcrypt hash, and a `createdAt` timestamp. -/

structure User where
  id : Nat
  email : String
  password : String
  createdAt : Nat
deriving DecidableEq, Repr

/-- Models `prisma.user.findUnique({ where: { email } })`. -/
def findUniqueByEmail (store : List User) (email : String) : Option User :=
  store.find? (fun u => u.email = email)

/-- Models `prisma.user.findUnique({ where: { id } })`. -/
def findUniqueById (store : List User) (id : Nat) : Option User :=
  store.find? (fun u => u.id = id)

/-- Error object reaching the global error handler: the fields of a thrown JS
error that `errorHandler` inspects (`name`, `message`, `stack`, `code`,
`meta.target`, `statusCode`). Absent JS properties are `none`. -/
structure ErrInfo where
  name : String
  message : String
  stack : String
  code : Option String
  metaTarget : Option String
  statusCode : Option Nat
deriving DecidableEq, Repr

/-- Models the Prisma unique-constraint error (`PrismaClientKnownRequestError`
with `code: "P2002"` and `meta.target` naming the violated column) thrown by
`prisma.user.create` when the email already exists. -/
def p2002Error : ErrInfo :=
  { name := "PrismaClientKnownRequestError"
    message := "Unique constraint failed on the fields: (email)"
    stack := "PrismaClientKnownRequestError stack"
    code := some "P2002"
    metaTarget := some "email"
    statusCode := none }

/-- Models `prisma.user.create({ data: { email, password } })` on a store whose
unique constraint on `email` holds: the insert is atomic, so on a duplicate
email it throws `p2002Error` and leaves the store unchanged; otherwise the
store assigns the next id and the current timestamp. -/
def prismaCreate (store : List User) (email password : String) (now : Nat) :
    Except ErrInfo (List User × User) :=
  if (store.find? (fun u => u.email = email)).isSome then
    .error p2002Error
  else
    let u : User := { id := store.length + 1, email := email, password := password,
                      createdAt := now }
    .ok (store ++ [u], u)

/-! ## Error handler (`src/middleware/errorHandler.js`)

Translated line by line: default status `err.statusCode || 500` and message
`err.message || 'Internal server error'`, then the sequence of `if` overrides
on `err.name`, then the Prisma `P2002` override, then the response body with
`error`/`stack` spread in only when `NODE_ENV === 'development'`. -/

def errorHandler (err : ErrInfo) (nodeEnv : String) : Nat × Json :=
  let statusCode := err.statusCode.getD 500
  let message := if err.message = "" then "Internal server error" else err.message
  let (statusCode, message) :=
    if err.name = "ValidationError" then (400, "Validation failed")
    else (statusCode, message)
  let (statusCode, message) :=
    if err.name = "UnauthorizedError" then (401, "Unauthorized access")
    else (statusCode, message)
  let (statusCode, message) :=
    if err.name = "JsonWebTokenError" then (403, "Invalid token")
    else (statusCode, message)
  let (statusCode, message) :=
    if err.name = "TokenExpiredError" then (403, "Token has expired")
    else (statusCode, message)
  let (statusCode, message) :=
    if err.code = some "P2002" then
      (400, "Unique constraint failed: " ++ err.metaTarget.getD "undefined")
    else (statusCode, message)
  let devTail : JsonObj :=
    if nodeEnv = "development" then
      .cons "error" (.str err.message) (.cons "stack" (.str err.stack) .nil)
    else .nil
  (statusCode,
    .obj (.cons "success" (.bool false) (.cons "message" (.str message) devTail)))

/-! ## Token service

Models `jwt.sign({ userId, email }, secret, { expiresIn: '7d' })` from
`jsonwebtoken`: the signed payload carries the two identity claims plus
`iat = now` and `exp = iat + 7 * 24 * 60 * 60` seconds. The serialized token
string is produced by an abstract signing oracle. -/

structure JwtPayload where
  userId : Nat
  email : String
  iat : Nat
  exp : Nat
deriving DecidableEq, Repr

def sevenDaysInSeconds : Nat := 7 * 24 * 60 * 60

def jwtSign (userId : Nat) (email : String) (nowSec : Nat) : JwtPayload :=
  { userId := userId, email := email, iat := nowSec, exp := nowSec + sevenDaysInSeconds }

/-- Outcome of a controller: either a direct `res.status(s).json(body)` or a
`next(error)` forwarding to the global error handler. -/
inductive Outcome where
  | respond (status : Nat) (body : Json) : Outcome
  | forward (err : ErrInfo) : Outcome
deriving DecidableEq

/-! ## Auth flow controller (`src/controllers/authController.js`)

The bcrypt hash and compare calls and the jwt serialization are oracle
parameters (`hashFn`, `compareFn`, `sign`); everything else is a direct
translation. `register` takes two store snapshots so that the race between the
`findUnique` existence check and the `create` insert is expressible:
`storeAtCheck` is what `findUnique` saw, `storeAtInsert` is what the store
holds when `create` runs (they coincide when no concurrent insert happened). -/

structure RegisterResult where
  outcome : Outcome
  store : List User
  issued : Option JwtPayload
deriving DecidableEq

def register (hashFn : String → String) (sign : JwtPayload → String) (now : Nat)
    (storeAtCheck storeAtInsert : List User) (email password : String) :
    RegisterResult :=
  match findUniqueByEmail storeAtCheck email with
  | some _ =>
      { outcome := .respond 400 (.obj (.cons "success" (.bool false)
          (.cons "message" (.str "Email already registered") .nil)))
        store := storeAtInsert
        issued := none }
  | none =>
      let hashedPassword := hashFn password
      match prismaCreate storeAtInsert email hashedPassword now with
      | .error e =>
          { outcome := .forward e, store := storeAtInsert, issued := none }
      | .ok (store2, user) =>
          let payload := jwtSign user.id user.email now
          let token := sign payload
          { outcome := .respond 201 (.obj (.cons "success" (.bool true)
              (.cons "message" (.str "Registration successful")
              (.cons "user" (.obj (.cons "id" (.num user.id)
                (.cons "email" (.str user.email) .nil)))
              (.cons "token" (.str token) .nil)))))
            store := store2
            issued := some payload }

structure LoginResult where
  outcome : Outcome
  issued : Option JwtPayload
deriving DecidableEq

def login (compareFn : String → String → Bool) (sign : JwtPayload → String)
    (now : Nat) (store : List User) (email password : String) : LoginResult :=
  match findUniqueByEmail store email with
  | none =>
      { outcome := .respond 401 (.obj (.cons "success" (.bool false)
          (.cons "message" (.str "Invalid email or password") .nil)))
        issued := none }
  | some user =>
      let passwordMatch := compareFn password user.password
      if !passwordMatch then
        { outcome := .respond 401 (.obj (.cons "success" (.bool false)
            (.cons "message" (.str "Invalid email or password") .nil)))
          issued := none }
      else
        let payload := jwtSign user.id user.email now
        let token := sign payload
        { outcome := .respond 200 (.obj (.cons "success" (.bool true)
            (.cons "message" (.str "Login successful")
            (.cons "user" (.obj (.cons "id" (.num user.id)
              (.cons "email" (.str user.email) .nil)))
            (.cons "token" (.str token) .nil)))))
          issued := some payload }

/-- `validateToken`: the auth middleware has already attached the decoded
`userId`; the handler re-fetches the user selecting `id`, `email`,
`createdAt`. -/
def validateToken (store : List User) (reqUserId : Nat) : Outcome :=
  match findUniqueById store reqUserId with
  | none =>
      .respond 404 (.obj (.cons "success" (.bool false)
        (.cons "message" (.str "User not found") .nil)))
  | some user =>
      .respond 200 (.obj (.cons "success" (.bool true)
        (.cons "message" (.str "Token is valid")
        (.cons "user" (.obj (.cons "id" (.num user.id)
          (.cons "email" (.str user.email)
          (.cons "createdAt" (.num user.createdAt) .nil)))) .nil))))

/-! ## IP-info controller

The upstream `axios.get(url, { timeout: 5000 })` call is an oracle
`upstream : String → Nat → AxiosResult` taking the url and the configured
timeout in milliseconds. On rejection axios supplies an error whose
`response.status` and `code` fields the catch block inspects; per axios
semantics a request that exceeds its timeout rejects with
`code === 'ECONNABORTED'` and no `response`. -/

structure AxiosError where
  responseStatus : Option Nat
  code : Option String
deriving DecidableEq, Repr

inductive AxiosResult where
  | ok (data : Json) : AxiosResult
  | err (e : AxiosError) : AxiosResult
deriving DecidableEq

/-- Models the axios rejection produced when the request exceeds the configured
timeout: `code` is `ECONNABORTED` and no HTTP response was received. -/
def axiosTimeoutResult : AxiosResult :=
  .err { responseStatus := none, code := some "ECONNABORTED" }

/-- Timeout passed to `axios.get` in `getIPInfo` (milliseconds). -/
def ipinfoTimeoutMs : Nat := 5000

def ipinfoUrl (clientIp : String) : String :=
  "https://ipinfo.io/" ++ clientIp ++ "/json"

/-- Models the `clientIp` selection at the top of `getIPInfo`: the `ip` query
parameter when present, otherwise `req.ip` with a leading `::ffff:` stripped. -/
def resolveClientIp (queryIp : Option String) (reqIp : String) : String :=
  match queryIp with
  | some ip => ip
  | none =>
      if reqIp.toList.take 7 = "::ffff:".toList then
        (reqIp.toList.drop 7).asString
      else reqIp

def getIPInfo (queryIp : Option String) (reqIp : String)
    (upstream : String → Nat → AxiosResult) : Outcome :=
  let clientIp := resolveClientIp queryIp reqIp
  let url := ipinfoUrl clientIp
  match upstream url ipinfoTimeoutMs with
  | .ok data =>
      .respond 200 (.obj (.cons "success" (.bool true)
        (.cons "data" data
        (.cons "detectedIp" (.str clientIp) .nil))))
  | .err e =>
      if e.responseStatus = some 404 then
        .respond 404 (.obj (.cons "success" (.bool false)
          (.cons "message" (.str "IP address not found") .nil)))
      else if e.code = some "ECONNABORTED" then
        .respond 504 (.obj (.cons "success" (.bool false)
          (.cons "message" (.str "Request timeout - IP service unavailable") .nil)))
      else
        .respond 500 (.obj (.cons "success" (.bool false)
          (.cons "message" (.str "Failed to fetch IP information") .nil)))

/-- The Express app applies `errorHandler` as the terminal middleware: a
controller outcome becomes a wire response either directly or through
`errorHandler`. -/
def toResponse (o : Outcome) (nodeEnv : String) : Nat × Json :=
  match o with
  | .respond s b => (s, b)
  | .forward e => errorHandler e nodeEnv

/-! ## Validation middleware (`src/middleware/validationMiddleware.js`)

The schemas are zod object schemas. `safeParse` on a `z.object` collects one
issue per failing field, iterating the shape keys in declaration order: a
missing key yields the default `Required` message, a present string runs its
checks (`email`, `min`), and `.refine` predicates run only when the base object
parsed cleanly. Request bodies are maps from the three field names to
optionally-present string values. -/

structure FieldError where
  field : String
  message : String
deriving DecidableEq, Repr

/-- Splitting a character list on a separator character (the list analogue of
splitting a string on a one-character separator: `n` separators yield `n + 1`
groups). -/
def splitOnChar (sep : Char) : List Char → List (List Char)
  | [] => [[]]
  | c :: rest =>
      match splitOnChar sep rest with
      | [] => [[c]]
      | g :: gs => if c = sep then [] :: g :: gs else (c :: g) :: gs

/-- Two consecutive dots somewhere in the list. -/
def hasDoubleDot : List Char → Bool
  | c1 :: c2 :: rest => (c1 = '.' && c2 = '.') || hasDoubleDot (c2 :: rest)
  | _ => false

/-- Character class `[A-Z0-9_'+\-\.]` (case-insensitive) of the local part of
the zod email regex. -/
def zodEmailLocalChar (c : Char) : Bool :=
  c.isAlpha || c.isDigit || c = Char.ofNat 95 || c = Char.ofNat 39 ||
    c = Char.ofNat 43 || c = Char.ofNat 45 || c = Char.ofNat 46

/-- Character class `[A-Z0-9_+\-]` (case-insensitive): the last character of
the local part. -/
def zodEmailLocalLastChar (c : Char) : Bool :=
  c.isAlpha || c.isDigit || c = Char.ofNat 95 || c = Char.ofNat 43 ||
    c = Char.ofNat 45

/-- A dotted domain label `[A-Z0-9][A-Z0-9\-]*` (case-insensitive). -/
def zodEmailLabelOk (cs : List Char) : Bool :=
  match cs with
  | [] => false
  | c :: rest =>
      (c.isAlpha || c.isDigit) &&
        rest.all (fun d => d.isAlpha || d.isDigit || d = Char.ofNat 45)

/-- Models the zod `z.string().email()` regex
`^(?!\.)(?!.*\.\.)([A-Z0-9_'+\-\.]*)[A-Z0-9_+\-]@([A-Z0-9][A-Z0-9\-]*\.)+[A-Z]...$/i`
(case-insensitive, final run of two or more letters): no leading dot, no
doubled dot, a non-empty local part over the allowed alphabet ending in a
non-dot character, one `@`, and a dotted domain whose final label is at least
two letters. -/
def zodEmailOk (s : String) : Bool :=
  let cs := s.toList
  let noLeadingDot :=
    match cs with
    | c :: _ => !(c = '.')
    | [] => true
  let noDoubleDot := !(hasDoubleDot cs)
  match splitOnChar '@' cs with
  | [localPart, domain] =>
      let localOk :=
        match localPart.reverse with
        | [] => false
        | last :: front => zodEmailLocalLastChar last && front.all zodEmailLocalChar
      let domainOk :=
        match (splitOnChar '.' domain).reverse with
        | [] => false
        | [_] => false
        | tld :: labels =>
            tld.length ≥ 2 && tld.all Char.isAlpha && labels.all zodEmailLabelOk
      noLeadingDot && noDoubleDot && localOk && domainOk
  | _ => false

/-- Request body for the register route: each of the three declared fields is
present with a string value or absent. -/
structure RegisterBody where
  email : Option String
  password : Option String
  confirmPassword : Option String
deriving DecidableEq, Repr

/-- Issues collected by the base `z.object` of `registerSchema` (before the
`.refine`), in shape-declaration order `email`, `password`, `confirmPassword`. -/
def registerSchemaBaseIssues (b : RegisterBody) : List FieldError :=
  (match b.email with
    | none => [{ field := "email", message := "Required" }]
    | some s =>
        if zodEmailOk s then []
        else [{ field := "email", message := "Invalid email format" }]) ++
  (match b.password with
    | none => [{ field := "password", message := "Required" }]
    | some s =>
        if s.length ≥ 6 then []
        else [{ field := "password", message := "Password must be at least 6 characters" }]) ++
  (match b.confirmPassword with
    | none => [{ field := "confirmPassword", message := "Required" }]
    | some _ => [])

/-- Models `registerSchema.safeParse`: base object issues first; the
`.refine((d) => d.password === d.confirmPassword)` runs only on a clean base
parse and reports against `confirmPassword`. -/
def registerSchemaSafeParse (b : RegisterBody) :
    Except (List FieldError) (String × String × String) :=
  match registerSchemaBaseIssues b, b.email, b.password, b.confirmPassword with
  | [], some e, some p, some c =>
      if p = c then .ok (e, p, c)
      else .error [{ field := "confirmPassword", message := "Passwords do not match" }]
  | issues, _, _, _ => .error issues

/-- Body for the login route. -/
structure LoginBody where
  email : Option String
  password : Option String
deriving DecidableEq, Repr

/-- Models `loginSchema.safeParse`. -/
def loginSchemaSafeParse (b : LoginBody) :
    Except (List FieldError) (String × String) :=
  let issues :=
    (match b.email with
      | none => [{ field := "email", message := "Required" }]
      | some s =>
          if zodEmailOk s then []
          else [{ field := "email", message := "Invalid email format" }]) ++
    (match b.password with
      | none => [{ field := "password", message := "Required" }]
      | some s =>
          if s.length ≥ 6 then []
          else [{ field := "password", message := "Password must be at least 6 characters" }])
  match issues, b.email, b.password with
  | [], some e, some p => .ok (e, p)
  | is, _, _ => .error is

/-- Models the regex of `ipSchema`, `^(\d{1,3}\.){3}\d{1,3}$`: four
dot-separated groups of one to three digits, with no range check on the
values. -/
def ipRegexOk (s : String) : Bool :=
  let groups := splitOnChar '.' s.toList
  groups.length = 4 &&
    groups.all (fun g => 1 ≤ g.length && g.length ≤ 3 && g.all Char.isDigit)

/-- JSON rendering of a violation list, as built in `validateRequest` from
`result.error.errors` (`field` is the joined path, `message` the zod
message). -/
def errorsToJson (errs : List FieldError) : Json :=
  .arr (errs.foldr (fun e acc =>
    .cons (.obj (.cons "field" (.str e.field)
      (.cons "message" (.str e.message) .nil))) acc) .nil)

/-- Models `validateRequest(schema)` applied to a register request body:
`some` response when validation rejects (the middleware responds 400 and the
controller never runs), `none` when it calls `next()`. -/
def validateRequestRegister (b : RegisterBody) : Option (Nat × Json) :=
  match registerSchemaSafeParse b with
  | .ok _ => none
  | .error errs =>
      some (400, .obj (.cons "success" (.bool false)
        (.cons "message" (.str "Validation failed")
        (.cons "errors" (errorsToJson errs) .nil))))

/-- Models `validateRequest(loginSchema)` on a login request body. -/
def validateRequestLogin (b : LoginBody) : Option (Nat × Json) :=
  match loginSchemaSafeParse b with
  | .ok _ => none
  | .error errs =>
      some (400, .obj (.cons "success" (.bool false)
        (.cons "message" (.str "Validation failed")
        (.cons "errors" (errorsToJson errs) .nil))))

/-! ## Routes and rate limiter (`src/routes/authRoutes.js`)

`authLimiter = rateLimit({ windowMs: 15 * 60 * 1000, max: 5, message: ... })`
is a single `express-rate-limit` instance shared by the `/register` and
`/login` routes. Per the library's fixed-window semantics, it keeps one hit
counter per client key (the source IP) for the current window, increments it on
every incoming request, and responds 429 with the configured message once the
incremented count exceeds `max`, without calling the rest of the chain. -/

def authLimiterWindowMs : Nat := 15 * 60 * 1000

def authLimiterMax : Nat := 5

def authLimiterMessage : String := "Too many attempts, please try again later"

/-- Hit counters of the shared `authLimiter` store for the current window. -/
def LimiterState : Type := String → Nat

/-- One request from `client` arriving at `authLimiter`: increment the
client's counter; the request proceeds down the chain iff the new total does
not exceed `max`. -/
def rateLimitHit (st : LimiterState) (client : String) : LimiterState × Bool :=
  let totalHits := st client + 1
  (fun c => if c = client then totalHits else st c,
    decide (totalHits ≤ authLimiterMax))

/-- Limiter store after a sequence of auth-class requests (each element is the
client key of one request to `/register` or `/login`), starting from the empty
window. -/
def limiterStateAfter (reqs : List String) : LimiterState :=
  reqs.foldl (fun st c => (rateLimitHit st c).1) (fun _ => 0)

/-- One request from `client` through an auth route: `authLimiter` first, then
the rest of the chain (validation middleware and controller), abstracted as
`chain`. The boolean records whether the chain past the limiter ran. -/
def authRouteStep (st : LimiterState) (client : String)
    (chain : Unit → Nat × Json) : LimiterState × ((Nat × Json) × Bool) :=
  let (st2, allowed) := rateLimitHit st client
  if allowed then (st2, (chain (), true))
  else (st2, ((429, .str authLimiterMessage), false))

/-- Response and chain-reached flag for the next auth-class request from `c`,
after the window already processed the requests in `reqs`. -/
def nextAuthOutcome (reqs : List String) (c : String)
    (chain : Unit → Nat × Json) : (Nat × Json) × Bool :=
  (authRouteStep (limiterStateAfter reqs) c chain).2

/-- One wiring entry of the Express router, with the middleware chain listed in
registration order. -/
structure RouteDef where
  method : String
  path : String
  middlewares : List String
  handler : String
deriving DecidableEq, Repr

/-- The four routes registered in `src/routes/authRoutes.js`, in order. -/
def routerRoutes : List RouteDef :=
  [ { method := "POST", path := "/register",
      middlewares := ["authLimiter", "validateRequest(registerSchema)"],
      handler := "register" },
    { method := "POST", path := "/login",
      middlewares := ["authLimiter", "validateRequest(loginSchema)"],
      handler := "login" },
    { method := "GET", path := "/ip-info",
      middlewares := [],
      handler := "getIPInfo" },
    { method := "GET", path := "/validate-token",
      middlewares := ["authenticateToken"],
      handler := "validateToken" } ]

/-- Wire response and final store of a register request that reached the
controller: the controller outcome, with a forwarded error rendered by the
terminal `errorHandler`. -/
def registerResponse (hashFn : String → String) (sign : JwtPayload → String)
    (now : Nat) (storeAtCheck storeAtInsert : List User)
    (email password : String) (nodeEnv : String) : (Nat × Json) × List User :=
  let r := register hashFn sign now storeAtCheck storeAtInsert email password
  (toResponse r.outcome nodeEnv, r.store)

/-! ## Claim theorems -/

/-- Claim C1: for every login request, the failure response when the email does
not exist in the store and the failure response when the email exists but the
password does not verify are identical: both are status 401 with the same
body, `success: false` and message `Invalid email or password`, so the two
cases cannot be distinguished by the client. -/
theorem login_unknown_email_and_wrong_password_indistinguishable
    (compareFn : String → String → Bool) (sign : JwtPayload → String)
    (now : Nat) (store : List User) (email password : String) :
    (findUniqueByEmail store email = none →
      (login compareFn sign now store email password).outcome =
        .respond 401 (.obj (.cons "success" (.bool false)
          (.cons "message" (.str "Invalid email or password") .nil)))) ∧
    (∀ u, findUniqueByEmail store email = some u →
      compareFn password u.password = false →
      (login compareFn sign now store email password).outcome =
        .respond 401 (.obj (.cons "success" (.bool false)
          (.cons "message" (.str "Invalid email or password") .nil)))) := by
  constructor
  · intro h
    simp [login, h]
  · intro u hu hc
    simp [login, hu, hc]

/-- Witness for C1: with a one-user store, a login for an absent email and a
login for the present email with a failing password check both produce the
same 401 response. -/
theorem login_unknown_email_and_wrong_password_indistinguishable_witness :
    (login (fun _ _ => false) (fun _ => "tok") 0
        [{ id := 1, email := "a@b.com", password := "hash", createdAt := 0 }]
        "missing@b.com" "pw").outcome =
      .respond 401 (.obj (.cons "success" (.bool false)
        (.cons "message" (.str "Invalid email or password") .nil))) ∧
    (login (fun _ _ => false) (fun _ => "tok") 0
        [{ id := 1, email := "a@b.com", password := "hash", createdAt := 0 }]
        "a@b.com" "pw").outcome =
      .respond 401 (.obj (.cons "success" (.bool false)
        (.cons "message" (.str "Invalid email or password") .nil))) :=
  ⟨(login_unknown_email_and_wrong_password_indistinguishable
      (fun _ _ => false) (fun _ => "tok") 0
      [{ id := 1, email := "a@b.com", password := "hash", createdAt := 0 }]
      "missing@b.com" "pw").1 (by decide),
   (login_unknown_email_and_wrong_password_indistinguishable
      (fun _ _ => false) (fun _ => "tok") 0
      [{ id := 1, email := "a@b.com", password := "hash", createdAt := 0 }]
      "a@b.com" "pw").2
      { id := 1, email := "a@b.com", password := "hash", createdAt := 0 }
      (by decide) rfl⟩

/-- Claim C2: a register request whose email already has a User fails with the
duplicate-email 400 response and leaves the store unchanged; when the check
passes but the store-level uniqueness constraint fires on insert (the race
between check and insert), the forwarded Prisma P2002 error is still mapped to
status 400 — not a generic 500 — and again no second record is stored. -/
theorem register_duplicate_email_always_400
    (hashFn : String → String) (sign : JwtPayload → String) (now : Nat)
    (storeAtCheck storeAtInsert : List User) (email password nodeEnv : String) :
    ((findUniqueByEmail storeAtCheck email).isSome →
      (registerResponse hashFn sign now storeAtCheck storeAtInsert
          email password nodeEnv).1.1 = 400 ∧
      (registerResponse hashFn sign now storeAtCheck storeAtInsert
          email password nodeEnv).2 = storeAtInsert) ∧
    (findUniqueByEmail storeAtCheck email = none →
      (findUniqueByEmail storeAtInsert email).isSome →
      (registerResponse hashFn sign now storeAtCheck storeAtInsert
          email password nodeEnv).1.1 = 400 ∧
      (registerResponse hashFn sign now storeAtCheck storeAtInsert
          email password nodeEnv).1.1 ≠ 500 ∧
      (registerResponse hashFn sign now storeAtCheck storeAtInsert
          email password nodeEnv).2 = storeAtInsert) := by
  constructor
  · intro h
    obtain ⟨u, hu⟩ := Option.isSome_iff_exists.mp h
    simp [registerResponse, register, hu, toResponse]
  · intro h1 h2
    have hcreate : prismaCreate storeAtInsert email (hashFn password) now =
        .error p2002Error := by
      simp [prismaCreate, findUniqueByEmail] at h2 ⊢
      simp [h2]
    simp [registerResponse, register, h1, hcreate, toResponse, errorHandler,
      p2002Error]

/-- Witness for C2: a concrete store with `a@b.com` registered; a repeat
registration seen by the existence check yields 400 without a new record, and
a race where only the insert sees the duplicate also yields 400, not 500. -/
theorem register_duplicate_email_always_400_witness :
    ((registerResponse (fun p => p) (fun _ => "tok") 7
        [{ id := 1, email := "a@b.com", password := "hash", createdAt := 0 }]
        [{ id := 1, email := "a@b.com", password := "hash", createdAt := 0 }]
        "a@b.com" "secret1" "production").1.1 = 400 ∧
      (registerResponse (fun p => p) (fun _ => "tok") 7
        [{ id := 1, email := "a@b.com", password := "hash", createdAt := 0 }]
        [{ id := 1, email := "a@b.com", password := "hash", createdAt := 0 }]
        "a@b.com" "secret1" "production").2 =
        [{ id := 1, email := "a@b.com", password := "hash", createdAt := 0 }]) ∧
    ((registerResponse (fun p => p) (fun _ => "tok") 7 []
        [{ id := 1, email := "a@b.com", password := "hash", createdAt := 0 }]
        "a@b.com" "secret1" "production").1.1 = 400 ∧
      (registerResponse (fun p => p) (fun _ => "tok") 7 []
        [{ id := 1, email := "a@b.com", password := "hash", createdAt := 0 }]
        "a@b.com" "secret1" "production").1.1 ≠ 500 ∧
      (registerResponse (fun p => p) (fun _ => "tok") 7 []
        [{ id := 1, email := "a@b.com", password := "hash", createdAt := 0 }]
        "a@b.com" "secret1" "production").2 =
        [{ id := 1, email := "a@b.com", password := "hash", createdAt := 0 }]) :=
  ⟨(register_duplicate_email_always_400 (fun p => p) (fun _ => "tok") 7
      [{ id := 1, email := "a@b.com", password := "hash", createdAt := 0 }]
      [{ id := 1, email := "a@b.com", password := "hash", createdAt := 0 }]
      "a@b.com" "secret1" "production").1 (by decide),
   (register_duplicate_email_always_400 (fun p => p) (fun _ => "tok") 7 []
      [{ id := 1, email := "a@b.com", password := "hash", createdAt := 0 }]
      "a@b.com" "secret1" "production").2 (by decide) (by decide)⟩

/-- Bodies produced by the terminal error handler carry only `success`,
`message` and (in development) `error`/`stack`: never a `password` key and
never a `user` object. -/
theorem errorHandler_no_password_key (err : ErrInfo) (nodeEnv : String) :
    "password" ∉ ((errorHandler err nodeEnv).2).keys ∧
    ((errorHandler err nodeEnv).2).lookup "user" = none := by
  by_cases henv : nodeEnv = "development" <;>
    simp [errorHandler, henv, Json.keys, JsonObj.keys, JsonList.keys,
      Json.lookup, JsonObj.lookupKey]

/-- Claim C3: every response of the register, login and validate-token
operations (success or failure, including errors rendered by the terminal
error handler) has no `password` key anywhere in its body, and any `user`
object it returns has exactly the keys `id` and `email` (plus `createdAt` for
validate-token). -/
theorem responses_never_expose_password_hash :
    (∀ (hashFn : String → String) (sign : JwtPayload → String) (now : Nat)
        (storeAtCheck storeAtInsert : List User) (email password nodeEnv : String),
      "password" ∉ ((registerResponse hashFn sign now storeAtCheck storeAtInsert
          email password nodeEnv).1.2).keys ∧
      (∀ u, ((registerResponse hashFn sign now storeAtCheck storeAtInsert
          email password nodeEnv).1.2).lookup "user" = some u →
        u.topKeys = ["id", "email"])) ∧
    (∀ (compareFn : String → String → Bool) (sign : JwtPayload → String)
        (now : Nat) (store : List User) (email password : String)
        (s : Nat) (b : Json),
      (login compareFn sign now store email password).outcome = .respond s b →
      "password" ∉ b.keys ∧
      ∀ u, b.lookup "user" = some u → u.topKeys = ["id", "email"]) ∧
    (∀ (store : List User) (reqUserId : Nat) (s : Nat) (b : Json),
      validateToken store reqUserId = .respond s b →
      "password" ∉ b.keys ∧
      ∀ u, b.lookup "user" = some u → u.topKeys = ["id", "email", "createdAt"]) := by
  refine ⟨?_, ?_, ?_⟩
  · intro hashFn sign now stC stI email password nodeEnv
    cases h : findUniqueByEmail stC email with
    | some u0 =>
        constructor
        · simp [registerResponse, register, h, toResponse, Json.keys,
            JsonObj.keys, JsonList.keys]
        · intro u hu
          simp [registerResponse, register, h, toResponse, Json.lookup,
            JsonObj.lookupKey] at hu
    | none =>
        by_cases hins : (stI.find? (fun v => v.email = email)).isSome
        · have hcreate : prismaCreate stI email (hashFn password) now =
              .error p2002Error := by
            simp [prismaCreate, hins]
          constructor
          · have := (errorHandler_no_password_key p2002Error nodeEnv).1
            simpa [registerResponse, register, h, hcreate, toResponse] using this
          · intro u hu
            have := (errorHandler_no_password_key p2002Error nodeEnv).2
            simp [registerResponse, register, h, hcreate, toResponse, this] at hu
        · constructor
          · simp [registerResponse, register, h, prismaCreate, hins, toResponse,
              Json.keys, JsonObj.keys, JsonList.keys]
          · intro u hu
            simp [registerResponse, register, h, prismaCreate, hins, toResponse,
              Json.lookup, JsonObj.lookupKey] at hu
            subst hu
            rfl
  · intro compareFn sign now store email password s b hsb
    cases h : findUniqueByEmail store email with
    | none =>
        simp [login, h] at hsb
        obtain ⟨-, hb⟩ := hsb
        subst hb
        constructor
        · simp [Json.keys, JsonObj.keys, JsonList.keys]
        · intro u hu
          simp [Json.lookup, JsonObj.lookupKey] at hu
    | some u0 =>
        by_cases hm : compareFn password u0.password
        · simp [login, h, hm] at hsb
          obtain ⟨-, hb⟩ := hsb
          subst hb
          constructor
          · simp [Json.keys, JsonObj.keys, JsonList.keys]
          · intro u hu
            simp [Json.lookup, JsonObj.lookupKey] at hu
            subst hu
            rfl
        · simp [login, h, hm] at hsb
          obtain ⟨-, hb⟩ := hsb
          subst hb
          constructor
          · simp [Json.keys, JsonObj.keys, JsonList.keys]
          · intro u hu
            simp [Json.lookup, JsonObj.lookupKey] at hu
  · intro store reqUserId s b hsb
    cases h : findUniqueById store reqUserId with
    | none =>
        simp [validateToken, h] at hsb
        obtain ⟨-, hb⟩ := hsb
        subst hb
        constructor
        · simp [Json.keys, JsonObj.keys, JsonList.keys]
        · intro u hu
          simp [Json.lookup, JsonObj.lookupKey] at hu
    | some u0 =>
        simp [validateToken, h] at hsb
        obtain ⟨-, hb⟩ := hsb
        subst hb
        constructor
        · simp [Json.keys, JsonObj.keys, JsonList.keys]
        · intro u hu
          simp [Json.lookup, JsonObj.lookupKey] at hu
          subst hu
          rfl

/-- Witness for C3: concrete register, login and validate-token responses have
no `password` key, and their `user` objects carry exactly the stated keys. -/
theorem responses_never_expose_password_hash_witness :
    ("password" ∉ ((registerResponse (fun p => p) (fun _ => "tok") 7 [] []
        "a@b.com" "secret1" "production").1.2).keys) ∧
    ("password" ∉ (Json.obj (.cons "success" (.bool true)
        (.cons "message" (.str "Login successful")
        (.cons "user" (.obj (.cons "id" (.num 1)
          (.cons "email" (.str "a@b.com") .nil)))
        (.cons "token" (.str "tok") .nil))))).keys ∧
      Json.topKeys (.obj (.cons "id" (.num 1)
        (.cons "email" (.str "a@b.com") .nil))) = ["id", "email"]) ∧
    ("password" ∉ (Json.obj (.cons "success" (.bool true)
        (.cons "message" (.str "Token is valid")
        (.cons "user" (.obj (.cons "id" (.num 1)
          (.cons "email" (.str "a@b.com")
          (.cons "createdAt" (.num 5) .nil)))) .nil)))).keys ∧
      Json.topKeys (.obj (.cons "id" (.num 1)
        (.cons "email" (.str "a@b.com")
        (.cons "createdAt" (.num 5) .nil)))) = ["id", "email", "createdAt"]) := by
  refine ⟨?_, ⟨?_, ?_⟩, ⟨?_, ?_⟩⟩
  · exact (responses_never_expose_password_hash.1 (fun p => p) (fun _ => "tok")
      7 [] [] "a@b.com" "secret1" "production").1
  · exact (responses_never_expose_password_hash.2.1 (fun _ _ => true)
      (fun _ => "tok") 7
      [{ id := 1, email := "a@b.com", password := "hash", createdAt := 5 }]
      "a@b.com" "pw" 200
      (Json.obj (.cons "success" (.bool true)
        (.cons "message" (.str "Login successful")
        (.cons "user" (.obj (.cons "id" (.num 1)
          (.cons "email" (.str "a@b.com") .nil)))
        (.cons "token" (.str "tok") .nil))))) (by decide)).1
  · exact (responses_never_expose_password_hash.2.1 (fun _ _ => true)
      (fun _ => "tok") 7
      [{ id := 1, email := "a@b.com", password := "hash", createdAt := 5 }]
      "a@b.com" "pw" 200
      (Json.obj (.cons "success" (.bool true)
        (.cons "message" (.str "Login successful")
        (.cons "user" (.obj (.cons "id" (.num 1)
          (.cons "email" (.str "a@b.com") .nil)))
        (.cons "token" (.str "tok") .nil))))) (by decide)).2
      (Json.obj (.cons "id" (.num 1) (.cons "email" (.str "a@b.com") .nil)))
      (by decide)
  · exact (responses_never_expose_password_hash.2.2
      [{ id := 1, email := "a@b.com", password := "hash", createdAt := 5 }]
      1 200
      (Json.obj (.cons "success" (.bool true)
        (.cons "message" (.str "Token is valid")
        (.cons "user" (.obj (.cons "id" (.num 1)
          (.cons "email" (.str "a@b.com")
          (.cons "createdAt" (.num 5) .nil)))) .nil)))) (by decide)).1
  · exact (responses_never_expose_password_hash.2.2
      [{ id := 1, email := "a@b.com", password := "hash", createdAt := 5 }]
      1 200
      (Json.obj (.cons "success" (.bool true)
        (.cons "message" (.str "Token is valid")
        (.cons "user" (.obj (.cons "id" (.num 1)
          (.cons "email" (.str "a@b.com")
          (.cons "createdAt" (.num 5) .nil)))) .nil)))) (by decide)).2
      (Json.obj (.cons "id" (.num 1) (.cons "email" (.str "a@b.com")
        (.cons "createdAt" (.num 5) .nil))))
      (by decide)

/-- Counterexample to C4: the body `email = "not-an-email"`, `password = "ab"`
(no `confirmPassword`) does get a 400 from the register validation middleware,
but its `errors` array has three entries — `registerSchema` also reports the
missing required `confirmPassword` field — not exactly two. -/
theorem register_validation_two_violations_counterexample :
    validateRequestRegister (RegisterBody.mk (some "not-an-email") (some "ab") none) =
      some (400, Json.obj (.cons "success" (.bool false)
        (.cons "message" (.str "Validation failed")
        (.cons "errors" (.arr
          (.cons (.obj (.cons "field" (.str "email")
            (.cons "message" (.str "Invalid email format") .nil)))
          (.cons (.obj (.cons "field" (.str "password")
            (.cons "message" (.str "Password must be at least 6 characters") .nil)))
          (.cons (.obj (.cons "field" (.str "confirmPassword")
            (.cons "message" (.str "Required") .nil)))
          .nil)))) .nil)))) ∧
    Json.arrLen (.arr
      (.cons (.obj (.cons "field" (.str "email")
        (.cons "message" (.str "Invalid email format") .nil)))
      (.cons (.obj (.cons "field" (.str "password")
        (.cons "message" (.str "Password must be at least 6 characters") .nil)))
      (.cons (.obj (.cons "field" (.str "confirmPassword")
        (.cons "message" (.str "Required") .nil)))
      .nil)))) ≠ 2 := by
  constructor
  · decide
  · decide

/-- Claim C4 (amended): validation does not short-circuit — a body with an
invalid email, a too-short password and no `confirmPassword` reports all three
violations, in schema-declaration order (`email`, `password`,
`confirmPassword`), and the concrete submission from the claim yields a 400
whose errors array has exactly three entries. -/
theorem register_validation_reports_all_violations :
    (∀ (e p : String), zodEmailOk e = false → p.length < 6 →
      registerSchemaBaseIssues (RegisterBody.mk (some e) (some p) none) =
        [{ field := "email", message := "Invalid email format" },
         { field := "password", message := "Password must be at least 6 characters" },
         { field := "confirmPassword", message := "Required" }]) ∧
    ((validateRequestRegister
        (RegisterBody.mk (some "not-an-email") (some "ab") none)).elim Json.null
          (fun r => (r.2.lookup "errors").getD .null)).arrLen = 3 := by
  constructor
  · intro e p he hp
    simp [registerSchemaBaseIssues, he, Nat.not_le.mpr hp]
  · decide

/-- Witness for the amended C4: the concrete claim body discharges the two
hypotheses and produces the full three-element violation list in order. -/
theorem register_validation_reports_all_violations_witness :
    registerSchemaBaseIssues (RegisterBody.mk (some "not-an-email") (some "ab") none) =
      [{ field := "email", message := "Invalid email format" },
       { field := "password", message := "Password must be at least 6 characters" },
       { field := "confirmPassword", message := "Required" }] :=
  register_validation_reports_all_violations.1 "not-an-email" "ab"
    (by decide) (by decide)

/-- Counterexample to C5: in the production configuration the terminal error
handler still uses the raw error message as the response message for errors
with no specific mapping (`message = err.message || ...`), and for a Prisma
P2002 error it embeds the database constraint target in the message — internal
diagnostic detail in a production response. -/
theorem production_error_responses_leak_detail_counterexample :
    errorHandler (ErrInfo.mk "Error" "connect ECONNREFUSED 127.0.0.1:5432"
        "at Server.connect" none none none) "production" =
      (500, Json.obj (.cons "success" (.bool false)
        (.cons "message" (.str "connect ECONNREFUSED 127.0.0.1:5432") .nil))) ∧
    errorHandler p2002Error "production" =
      (400, Json.obj (.cons "success" (.bool false)
        (.cons "message" (.str "Unique constraint failed: email") .nil))) := by
  constructor
  · decide
  · decide

/-- Claim C5 (amended): outside the development configuration, the terminal
error handler never attaches the `error` and `stack` diagnostic fields: the
response body has exactly the keys `success` and `message`. The message
itself, however, is not always a fixed mapped message — it falls back to the
raw error message, and embeds the constraint target for P2002 errors. -/
theorem production_error_responses_have_only_success_and_message
    (err : ErrInfo) (nodeEnv : String) (h : nodeEnv ≠ "development") :
    ((errorHandler err nodeEnv).2).topKeys = ["success", "message"] := by
  simp [errorHandler, h, Json.topKeys, JsonObj.topList]

/-- Witness for the amended C5: a concrete unmapped error in production
yields a body with exactly the keys `success` and `message`. -/
theorem production_error_responses_have_only_success_and_message_witness :
    ((errorHandler (ErrInfo.mk "Error" "boom" "trace" none none none)
        "production").2).topKeys = ["success", "message"] :=
  production_error_responses_have_only_success_and_message
    (ErrInfo.mk "Error" "boom" "trace" none none none) "production" (by decide)

/-- The shared limiter store counts exactly the requests of each client:
folding a request sequence over `rateLimitHit` adds the client's occurrence
count to its counter. -/
theorem limiter_hits_eq_count (reqs : List String) :
    ∀ (st : LimiterState) (c : String),
      (reqs.foldl (fun s x => (rateLimitHit s x).1) st) c = st c + reqs.count c := by
  induction reqs with
  | nil => intro st c; simp [List.count]
  | cons r rest ih =>
      intro st c
      simp only [List.foldl_cons]
      rw [ih]
      by_cases hrc : c = r
      · subst hrc
        simp [rateLimitHit, List.count_cons]
        omega
      · simp [rateLimitHit, hrc, List.count_cons, Ne.symm hrc]

/-- Claim C6: with the configured 15-minute window and max of 5, an auth-class
request (to `/register` or `/login`) from a client whose prior request count
in the window is below 5 passes the limiter and runs the rest of the chain,
while a request arriving with 5 or more prior requests from the same client is
answered 429 with the configured message and the chain past the limiter (the
validation middleware and the auth controller) never runs. -/
theorem auth_rate_limiter_blocks_sixth_request
    (reqs : List String) (c : String) (chain : Unit → Nat × Json) :
    authLimiterWindowMs = 15 * 60 * 1000 ∧
    authLimiterMax = 5 ∧
    (reqs.count c + 1 ≤ 5 →
      nextAuthOutcome reqs c chain = (chain (), true)) ∧
    (5 ≤ reqs.count c →
      nextAuthOutcome reqs c chain = ((429, .str authLimiterMessage), false)) := by
  have hst : limiterStateAfter reqs c = reqs.count c := by
    simpa [limiterStateAfter] using limiter_hits_eq_count reqs (fun _ => 0) c
  refine ⟨rfl, rfl, ?_, ?_⟩
  · intro h
    simp [nextAuthOutcome, authRouteStep, rateLimitHit, hst, authLimiterMax, h]
  · intro h
    have h2 : ¬ (reqs.count c + 1 ≤ authLimiterMax) := by
      simp [authLimiterMax]
      omega
    simp [nextAuthOutcome, authRouteStep, rateLimitHit, hst, h2]

/-- Witness for C6: with five prior requests from client `a` in the window,
the next request is rejected 429 without running the chain; with four prior
requests it still passes through to the chain. -/
theorem auth_rate_limiter_blocks_sixth_request_witness :
    nextAuthOutcome ["a", "a", "a", "a"] "a" (fun _ => (200, Json.null)) =
      ((200, Json.null), true) ∧
    nextAuthOutcome ["a", "a", "a", "a", "a"] "a" (fun _ => (200, Json.null)) =
      ((429, .str authLimiterMessage), false) :=
  ⟨(auth_rate_limiter_blocks_sixth_request ["a", "a", "a", "a"] "a"
      (fun _ => (200, Json.null))).2.2.1 (by decide),
   (auth_rate_limiter_blocks_sixth_request ["a", "a", "a", "a", "a"] "a"
      (fun _ => (200, Json.null))).2.2.2 (by decide)⟩

/-- Claim C7: `getIPInfo` gives the upstream geolocation call a 5000 ms (5 s)
timeout budget — its result depends on the upstream only through the call made
with that budget — and when the call times out (the axios `ECONNABORTED`
rejection) the endpoint responds 504, never 500. -/
theorem ipinfo_timeout_five_seconds_maps_to_504 :
    ipinfoTimeoutMs = 5000 ∧
    (∀ (qip : Option String) (rip : String) (f g : String → Nat → AxiosResult),
      (∀ url, f url ipinfoTimeoutMs = g url ipinfoTimeoutMs) →
      getIPInfo qip rip f = getIPInfo qip rip g) ∧
    (∀ (qip : Option String) (rip : String),
      getIPInfo qip rip (fun _ _ => axiosTimeoutResult) =
        .respond 504 (.obj (.cons "success" (.bool false)
          (.cons "message" (.str "Request timeout - IP service unavailable") .nil))) ∧
      ∀ s b, getIPInfo qip rip (fun _ _ => axiosTimeoutResult) = .respond s b →
        s ≠ 500) := by
  refine ⟨rfl, ?_, ?_⟩
  · intro qip rip f g h
    simp only [getIPInfo]
    rw [h]
  · intro qip rip
    have hres : getIPInfo qip rip (fun _ _ => axiosTimeoutResult) =
        .respond 504 (.obj (.cons "success" (.bool false)
          (.cons "message" (.str "Request timeout - IP service unavailable") .nil))) := by
      simp [getIPInfo, axiosTimeoutResult]
    refine ⟨hres, ?_⟩
    intro s b heq
    rw [hres] at heq
    cases heq
    decide

/-- Witness for C7: with a concrete query IP and an upstream that times out,
the endpoint answers 504 (and two upstreams that agree at the 5000 ms budget
give the same response). -/
theorem ipinfo_timeout_five_seconds_maps_to_504_witness :
    getIPInfo (some "8.8.8.8") "1.1.1.1" (fun _ _ => axiosTimeoutResult) =
      getIPInfo (some "8.8.8.8") "1.1.1.1" (fun _ _ => axiosTimeoutResult) ∧
    getIPInfo (some "8.8.8.8") "1.1.1.1" (fun _ _ => axiosTimeoutResult) =
      .respond 504 (.obj (.cons "success" (.bool false)
        (.cons "message" (.str "Request timeout - IP service unavailable") .nil))) ∧
    (504 : Nat) ≠ 500 :=
  ⟨ipinfo_timeout_five_seconds_maps_to_504.2.1 (some "8.8.8.8") "1.1.1.1"
      (fun _ _ => axiosTimeoutResult) (fun _ _ => axiosTimeoutResult)
      (fun _ => rfl),
   (ipinfo_timeout_five_seconds_maps_to_504.2.2 (some "8.8.8.8") "1.1.1.1").1,
   (ipinfo_timeout_five_seconds_maps_to_504.2.2 (some "8.8.8.8") "1.1.1.1").2
     504 (.obj (.cons "success" (.bool false)
       (.cons "message" (.str "Request timeout - IP service unavailable") .nil)))
     (ipinfo_timeout_five_seconds_maps_to_504.2.2 (some "8.8.8.8") "1.1.1.1").1⟩

/-- Claim C8 (code evaluation): the `/ip-info` route is registered with no
middleware at all — `validateRequest(ipSchema)` is never applied — so a
request with `ip=abc`, which the `ipSchema` regex rejects, still reaches
`getIPInfo`, which attempts the upstream lookup and answers with its own 500
when that fails; the regex itself accepts `999.999.999.999` since octet range
is not checked. -/
theorem ipinfo_route_bypasses_ip_validation :
    routerRoutes.find? (fun r => r.path = "/ip-info") =
      some (RouteDef.mk "GET" "/ip-info" [] "getIPInfo") ∧
    ipRegexOk "abc" = false ∧
    ipRegexOk "999.999.999.999" = true ∧
    ipRegexOk "8.8.8.8" = true ∧
    getIPInfo (some "abc") "9.9.9.9" (fun _ _ => .err (AxiosError.mk none none)) =
      .respond 500 (.obj (.cons "success" (.bool false)
        (.cons "message" (.str "Failed to fetch IP information") .nil))) := by
  refine ⟨by decide, by decide, by decide, by decide, by decide⟩

/-- Claim C9: every token issued by register and login carries the user's id
and email as claims and expires exactly `7 * 24 * 60 * 60` seconds (7 days)
after its issue timestamp. -/
theorem issued_tokens_carry_identity_and_expire_in_seven_days :
    sevenDaysInSeconds = 7 * 24 * 60 * 60 ∧
    (∀ (hashFn : String → String) (sign : JwtPayload → String) (now : Nat)
        (stC stI : List User) (email password : String) (p : JwtPayload),
      (register hashFn sign now stC stI email password).issued = some p →
      p.email = email ∧ p.iat = now ∧ p.exp = p.iat + sevenDaysInSeconds ∧
      ∃ u, (register hashFn sign now stC stI email password).store = stI ++ [u] ∧
        u.email = email ∧ p.userId = u.id) ∧
    (∀ (compareFn : String → String → Bool) (sign : JwtPayload → String)
        (now : Nat) (store : List User) (email password : String) (p : JwtPayload),
      (login compareFn sign now store email password).issued = some p →
      ∃ u, findUniqueByEmail store email = some u ∧ p.userId = u.id ∧
        p.email = u.email ∧ p.iat = now ∧ p.exp = p.iat + sevenDaysInSeconds) := by
  refine ⟨rfl, ?_, ?_⟩
  · intro hashFn sign now stC stI email password p hp
    cases h : findUniqueByEmail stC email with
    | some u0 => simp [register, h] at hp
    | none =>
        by_cases hins : (stI.find? (fun v => v.email = email)).isSome
        · simp [register, h, prismaCreate, hins] at hp
        · simp [register, h, prismaCreate, hins, jwtSign] at hp
          subst hp
          refine ⟨rfl, rfl, rfl, ?_⟩
          exact ⟨User.mk (stI.length + 1) email (hashFn password) now,
            by simp [register, h, prismaCreate, hins], rfl, rfl⟩
  · intro compareFn sign now store email password p hp
    cases h : findUniqueByEmail store email with
    | none => simp [login, h] at hp
    | some u0 =>
        by_cases hm : compareFn password u0.password
        · simp [login, h, hm, jwtSign] at hp
          subst hp
          exact ⟨u0, rfl, rfl, rfl, rfl, rfl⟩
        · simp [login, h, hm] at hp

/-- Witness for C9: a concrete registration and a concrete login issue the
payloads with `iat = now` and `exp = now + 604800`. -/
theorem issued_tokens_carry_identity_and_expire_in_seven_days_witness :
    ((JwtPayload.mk 1 "a@b.com" 7 604807).email = "a@b.com" ∧
      (JwtPayload.mk 1 "a@b.com" 7 604807).iat = 7 ∧
      (JwtPayload.mk 1 "a@b.com" 7 604807).exp =
        (JwtPayload.mk 1 "a@b.com" 7 604807).iat + sevenDaysInSeconds ∧
      ∃ u, (register (fun p => p) (fun _ => "tok") 7 [] []
          "a@b.com" "secret1").store = [] ++ [u] ∧
        u.email = "a@b.com" ∧ (JwtPayload.mk 1 "a@b.com" 7 604807).userId = u.id) ∧
    (∃ u, findUniqueByEmail
        [User.mk 1 "a@b.com" "hash" 5] "a@b.com" = some u ∧
      (JwtPayload.mk 1 "a@b.com" 50 604850).userId = u.id ∧
      (JwtPayload.mk 1 "a@b.com" 50 604850).email = u.email ∧
      (JwtPayload.mk 1 "a@b.com" 50 604850).iat = 50 ∧
      (JwtPayload.mk 1 "a@b.com" 50 604850).exp =
        (JwtPayload.mk 1 "a@b.com" 50 604850).iat + sevenDaysInSeconds) :=
  ⟨issued_tokens_carry_identity_and_expire_in_seven_days.2.1 (fun p => p)
      (fun _ => "tok") 7 [] [] "a@b.com" "secret1"
      (JwtPayload.mk 1 "a@b.com" 7 604807) (by decide),
   issued_tokens_carry_identity_and_expire_in_seven_days.2.2 (fun _ _ => true)
      (fun _ => "tok") 50 [User.mk 1 "a@b.com" "hash" 5] "a@b.com" "pw"
      (JwtPayload.mk 1 "a@b.com" 50 604850) (by decide)⟩

/-- Claim C10: the IP-info handler never forwards to the global error
pipeline — every upstream outcome gets a direct response — and on upstream
failure the response is exactly one of three: upstream HTTP 404 maps to a
local 404 with message `IP address not found`, an `ECONNABORTED` timeout maps
to 504, and every other failure maps to 500. -/
theorem ipinfo_error_branch_partition (qip : Option String) (rip : String) :
    (∀ upstream, ∃ s b, getIPInfo qip rip upstream = .respond s b) ∧
    ∀ e : AxiosError,
      (e.responseStatus = some 404 →
        getIPInfo qip rip (fun _ _ => .err e) =
          .respond 404 (.obj (.cons "success" (.bool false)
            (.cons "message" (.str "IP address not found") .nil)))) ∧
      (e.responseStatus ≠ some 404 → e.code = some "ECONNABORTED" →
        getIPInfo qip rip (fun _ _ => .err e) =
          .respond 504 (.obj (.cons "success" (.bool false)
            (.cons "message" (.str "Request timeout - IP service unavailable") .nil)))) ∧
      (e.responseStatus ≠ some 404 → e.code ≠ some "ECONNABORTED" →
        getIPInfo qip rip (fun _ _ => .err e) =
          .respond 500 (.obj (.cons "success" (.bool false)
            (.cons "message" (.str "Failed to fetch IP information") .nil)))) ∧
      (getIPInfo qip rip (fun _ _ => .err e) =
          .respond 404 (.obj (.cons "success" (.bool false)
            (.cons "message" (.str "IP address not found") .nil))) ∨
        getIPInfo qip rip (fun _ _ => .err e) =
          .respond 504 (.obj (.cons "success" (.bool false)
            (.cons "message" (.str "Request timeout - IP service unavailable") .nil))) ∨
        getIPInfo qip rip (fun _ _ => .err e) =
          .respond 500 (.obj (.cons "success" (.bool false)
            (.cons "message" (.str "Failed to fetch IP information") .nil)))) := by
  constructor
  · intro upstream
    cases h : upstream (ipinfoUrl (resolveClientIp qip rip)) ipinfoTimeoutMs with
    | ok data =>
        exact ⟨200, .obj (.cons "success" (.bool true) (.cons "data" data
          (.cons "detectedIp" (.str (resolveClientIp qip rip)) .nil))),
          by simp [getIPInfo, h]⟩
    | err e =>
        by_cases h404 : e.responseStatus = some 404
        · exact ⟨404, .obj (.cons "success" (.bool false)
            (.cons "message" (.str "IP address not found") .nil)),
            by simp [getIPInfo, h, h404]⟩
        · by_cases habort : e.code = some "ECONNABORTED"
          · exact ⟨504, .obj (.cons "success" (.bool false)
              (.cons "message" (.str "Request timeout - IP service unavailable") .nil)),
              by simp [getIPInfo, h, h404, habort]⟩
          · exact ⟨500, .obj (.cons "success" (.bool false)
              (.cons "message" (.str "Failed to fetch IP information") .nil)),
              by simp [getIPInfo, h, h404, habort]⟩
  · intro e
    by_cases h404 : e.responseStatus = some 404
    · refine ⟨fun _ => by simp [getIPInfo, h404], fun h _ => absurd h404 h,
        fun h _ => absurd h404 h, Or.inl (by simp [getIPInfo, h404])⟩
    · by_cases habort : e.code = some "ECONNABORTED"
      · refine ⟨fun h => absurd h h404, fun _ _ => by simp [getIPInfo, h404, habort],
          fun _ h => absurd habort h,
          Or.inr (Or.inl (by simp [getIPInfo, h404, habort]))⟩
      · refine ⟨fun h => absurd h h404, fun _ h => absurd h habort,
          fun _ _ => by simp [getIPInfo, h404, habort],
          Or.inr (Or.inr (by simp [getIPInfo, h404, habort]))⟩

/-- Witness for C10: the three concrete failure shapes — upstream 404, timeout,
and a plain network error — produce exactly the 404, 504 and 500 responses. -/
theorem ipinfo_error_branch_partition_witness :
    getIPInfo (some "8.8.8.8") "2.2.2.2"
        (fun _ _ => .err (AxiosError.mk (some 404) none)) =
      .respond 404 (.obj (.cons "success" (.bool false)
        (.cons "message" (.str "IP address not found") .nil))) ∧
    getIPInfo (some "8.8.8.8") "2.2.2.2"
        (fun _ _ => .err (AxiosError.mk none (some "ECONNABORTED"))) =
      .respond 504 (.obj (.cons "success" (.bool false)
        (.cons "message" (.str "Request timeout - IP service unavailable") .nil))) ∧
    getIPInfo (some "8.8.8.8") "2.2.2.2"
        (fun _ _ => .err (AxiosError.mk none (some "ENOTFOUND"))) =
      .respond 500 (.obj (.cons "success" (.bool false)
        (.cons "message" (.str "Failed to fetch IP information") .nil))) :=
  ⟨((ipinfo_error_branch_partition (some "8.8.8.8") "2.2.2.2").2
      (AxiosError.mk (some 404) none)).1 (by decide),
   ((ipinfo_error_branch_partition (some "8.8.8.8") "2.2.2.2").2
      (AxiosError.mk none (some "ECONNABORTED"))).2.1 (by decide) (by decide),
   ((ipinfo_error_branch_partition (some "8.8.8.8") "2.2.2.2").2
      (AxiosError.mk none (some "ENOTFOUND"))).2.2.1 (by decide) (by decide)⟩

end IpGeoApi
